import Mathlib

/-!
Shallow embedding of the LittleLemon ordering API (LittleLemonAPI app:
models.py, serializers.py, views.py) and proofs about its cart / order
logic.  The relational state is a record of lists of rows; Django ORM
queries become list operations.  `DecimalField(max_digits=6,
decimal_places=2)` values are exact multiples of 0.01, so money is
modelled as an integer number of cents.
-/

namespace LittleLemon

/-- Money in cents: a `Decimal(max_digits=6, decimal_places=2)` value. -/
abbrev Money := Int

/-- Row of `models.MenuItem`. -/
structure MenuItem where
  id : Nat
  title : String
  price : Money
  featured : Bool
  category : Nat
deriving DecidableEq, Repr

/-- Row of `models.Cart` (one-to-one with a user). -/
structure Cart where
  id : Nat
  user : Nat
deriving DecidableEq, Repr

/-- Row of `models.CartItem`. -/
structure CartItem where
  id : Nat
  user : Nat
  cart : Nat
  menu_item : Nat
  quantity : Int
deriving DecidableEq, Repr

/-- Row of `models.Order`.  The `date` column (`auto_now_add`) is set from
the framework clock and plays no role in the verified logic, so it is not
modelled. -/
structure Order where
  id : Nat
  user : Nat
  delivery_crew : Option Nat
  status : Bool
deriving DecidableEq, Repr

/-- Row of `models.OrderItem`. -/
structure OrderItem where
  id : Nat
  order : Nat
  menu_item : Nat
  quantity : Int
  unit_price : Money
  price : Money
deriving DecidableEq, Repr

/-- Row of `django.contrib.auth.models.Group`. -/
structure Group where
  id : Nat
  name : String
deriving DecidableEq, Repr

/-- Row of `django.contrib.auth.models.User`; `groups` holds the ids of
the groups the user belongs to (the `user.groups` many-to-many). -/
structure User where
  id : Nat
  username : String
  groups : List Nat
deriving DecidableEq, Repr

/-- The database state: one list of rows per table.  `nextId` models the
autoincrementing primary-key sequence shared for freshness. -/
structure DB where
  menuItems : List MenuItem
  carts : List Cart
  cartItems : List CartItem
  orders : List Order
  orderItems : List OrderItem
  groups : List Group
  users : List User
  nextId : Nat
deriving DecidableEq, Repr

/-- Outcome of a request handled by a serializer or view: a committed new
state with the created/affected row, a DRF `ValidationError` (HTTP 400), an
`Http404`, or an unhandled exception. -/
inductive PostResult (α : Type) where
  | ok : DB → α → PostResult α
  | invalid : String → PostResult α
  | notFound : PostResult α
  | crash : PostResult α
deriving DecidableEq, Repr

/-- Database state after a request: an error response leaves the state as
it was (a `ValidationError` is raised before any write). -/
def PostResult.stateAfter (db : DB) : PostResult α → DB
  | .ok db2 _ => db2
  | _ => db

/-- Query `user.cart_items.all()`: the cart items whose `user` foreign key
is `u`. -/
def DB.userCartItems (db : DB) (u : Nat) : List CartItem :=
  db.cartItems.filter (fun ci => ci.user == u)

/-- Query `user.cart`, the one-to-one reverse accessor (`hasattr(user,
"cart")` is `isSome`). -/
def DB.userCart (db : DB) (u : Nat) : Option Cart :=
  db.carts.find? (fun c => c.user == u)

/-- Query `MenuItem.objects.get(id=mid)` as an `Option`. -/
def DB.findMenuItem (db : DB) (mid : Nat) : Option MenuItem :=
  db.menuItems.find? (fun m => m.id == mid)

/-- Access `item.menu_item.price`: foreign-key integrity makes the lookup
total in Django; the `none` branch is unreachable on well-formed states. -/
def DB.menuPrice (db : DB) (mid : Nat) : Money :=
  match db.findMenuItem mid with
  | some m => m.price
  | none => 0

/-- Query `value.groups.filter(name=gname).exists()` for a user row. -/
def User.inGroup (db : DB) (u : User) (gname : String) : Bool :=
  !(db.groups.filter (fun g => g.name == gname && u.groups.contains g.id)).isEmpty

/-- Query `User.objects.get(id=uid)` as an `Option`. -/
def DB.findUser (db : DB) (uid : Nat) : Option User :=
  db.users.find? (fun u => u.id == uid)

/-! ### Serializer and view operations (serializers.py, views.py) -/

/-- Behaviour of `CartSerializer.get_total` (serializers.py lines 82-86):
start from `Decimal(0.0)` and accumulate `item.menu_item.price *
item.quantity` over `obj.cart_items.all()`, the cart items whose `cart`
foreign key is the cart. -/
def CartSerializer.get_total (db : DB) (cid : Nat) : Money :=
  (db.cartItems.filter (fun ci => ci.cart == cid)).foldl
    (fun total ci => total + db.menuPrice ci.menu_item * ci.quantity) 0

/-- Behaviour of `OrderSerializer.get_total` (serializers.py lines
158-163): start from `Decimal(0.0)` and accumulate `item.price` over
`obj.order_items.all()`. -/
def OrderSerializer.get_total (db : DB) (oid : Nat) : Money :=
  (db.orderItems.filter (fun oi => oi.order == oid)).foldl
    (fun total oi => total + oi.price) 0

/-- Behaviour of `CartItemSerializer` on POST (`create` action):
deserialization and validation in DRF field order, then
`CartItemSerializer.create` (serializers.py lines 89-134).
Field checks: `validate_menu_item_id` (menu item must exist), the
`min_value: 1` bound on `quantity`, then the class-level
`UniqueTogetherValidator` on `(user, menu_item_id)`.  `create` attaches
the row to `user.cart`, creating the cart first when the user has none. -/
def CartItemSerializer.post (db : DB) (u : Nat) (mid : Nat) (q : Int) :
    PostResult CartItem :=
  if (db.menuItems.filter (fun m => m.id == mid)).isEmpty then
    .invalid "Invalid menu item ID"
  else if q < 1 then
    .invalid "Ensure this value is greater than or equal to 1."
  else if !(db.cartItems.filter
      (fun ci => ci.user == u && ci.menu_item == mid)).isEmpty then
    .invalid "The fields user, menu_item_id must make a unique set."
  else
    match db.userCart u with
    | some c =>
      let item : CartItem :=
        { id := db.nextId, user := u, cart := c.id, menu_item := mid,
          quantity := q }
      .ok { db with cartItems := db.cartItems ++ [item],
                    nextId := db.nextId + 1 } item
    | none =>
      let c : Cart := { id := db.nextId, user := u }
      let item : CartItem :=
        { id := db.nextId + 1, user := u, cart := c.id, menu_item := mid,
          quantity := q }
      .ok { db with carts := db.carts ++ [c],
                    cartItems := db.cartItems ++ [item],
                    nextId := db.nextId + 2 } item

/-- Behaviour of `CartItemSerializer` on PUT (`update` action): the view
fetches the instance from the user-filtered queryset (404 when absent),
then the same field checks run, with the `UniqueTogetherValidator`
excluding the instance itself, and the default `ModelSerializer.update`
writes `menu_item_id` and `quantity`. -/
def CartItemSerializer.put (db : DB) (u : Nat) (pk : Nat) (mid : Nat)
    (q : Int) : PostResult CartItem :=
  match (db.cartItems.filter (fun ci => ci.user == u)).find?
      (fun ci => ci.id == pk) with
  | none => .notFound
  | some inst =>
    if (db.menuItems.filter (fun m => m.id == mid)).isEmpty then
      .invalid "Invalid menu item ID"
    else if q < 1 then
      .invalid "Ensure this value is greater than or equal to 1."
    else if !(db.cartItems.filter (fun ci =>
        ci.user == u && ci.menu_item == mid && ci.id != inst.id)).isEmpty then
      .invalid "The fields user, menu_item_id must make a unique set."
    else
      let item : CartItem := { inst with menu_item := mid, quantity := q }
      let rows := db.cartItems.map (fun ci => if ci.id == inst.id then item else ci)
      .ok { db with cartItems := rows } item

/-- Behaviour of `OrderSerializer.validate_delivery_crew` (serializers.py
lines 173-176): reject unless `value.groups.filter(name="Delivery
Crew").exists()`. -/
def OrderSerializer.validate_delivery_crew (db : DB) (du : User) :
    Except String User :=
  if du.inGroup db "Delivery Crew" then .ok du
  else .error "Invalid delivery crew ID"

/-- Field list of `OrderSerializer.Meta.fields` (serializers.py lines
148-156). -/
def OrderSerializer.fieldNames : List String :=
  ["id", "user", "delivery_crew", "status", "date", "order_items", "total"]

/-- Behaviour of `HiddenFieldSerializerMixin.get_fields` (serializers.py
lines 205-212): pop every field named in `hidden_fields`. -/
def HiddenFieldSerializerMixin.get_fields (fields hidden : List String) :
    List String :=
  fields.filter (fun f => !hidden.contains f)

/-- The `hidden_fields` that `OrderViewSet.get_serializer_class` installs
for a POST request (views.py lines 95-111). -/
def OrderViewSet.postHiddenFields : List String :=
  ["delivery_crew", "status"]

/-- Values a POST body may supply for the writable order fields. -/
structure OrderRequestBody where
  delivery_crew : Option Nat
  status : Option Bool
deriving DecidableEq, Repr

/-- The order items the loop in `OrderSerializer.create` (serializers.py
lines 182-189) inserts: one per cart item, in iteration order, with
consecutive fresh primary keys starting at `k`. -/
def snapshotItems (db : DB) (oid : Nat) : Nat → List CartItem → List OrderItem
  | _, [] => []
  | k, ci :: rest =>
    { id := k, order := oid, menu_item := ci.menu_item,
      quantity := ci.quantity, unit_price := db.menuPrice ci.menu_item,
      price := db.menuPrice ci.menu_item * ci.quantity }
      :: snapshotItems db oid (k + 1) rest

/-- The write phase of `OrderSerializer.create` (serializers.py lines
178-193), after validation has passed. -/
def OrderSerializer.createCommit (db : DB) (u : Nat) (dc : Option Nat)
    (st : Bool) : PostResult Order :=
  let order : Order := { id := db.nextId, user := u, delivery_crew := dc,
                         status := st }
  let items := db.cartItems.filter (fun ci => ci.user == u)
  let ois := snapshotItems db order.id (db.nextId + 1) items
  let db1 : DB := { db with orders := db.orders ++ [order],
                            orderItems := db.orderItems ++ ois,
                            nextId := db.nextId + 1 + items.length }
  match db1.userCart u with
  | none => .crash
  | some c =>
    .ok { db1 with carts := db1.carts.filter (fun c2 => c2.id != c.id),
                   cartItems := db1.cartItems.filter
                     (fun ci => ci.cart != c.id) } order

/-- Behaviour of a POST to `OrderViewSet`: `get_serializer_class` hides
`delivery_crew` and `status`, so the body values of those fields are
dropped before binding; `validate_user` rejects an empty cart;
`validate_delivery_crew` runs when a crew value was bound; then
`OrderSerializer.create` inserts the order (absent fields fall back to the
model defaults: crew `NULL`, status false), snapshots every cart item
into an order item, and deletes `user.cart` (cascading to its cart items;
an absent cart would raise, modelled as `crash`). -/
def OrderSerializer.post (db : DB) (u : Nat) (body : OrderRequestBody) :
    PostResult Order :=
  let fields := HiddenFieldSerializerMixin.get_fields
    OrderSerializer.fieldNames OrderViewSet.postHiddenFields
  let dc : Option Nat :=
    if fields.contains "delivery_crew" then body.delivery_crew else none
  let st : Bool :=
    if fields.contains "status" then body.status.getD false else false
  if (db.cartItems.filter (fun ci => ci.user == u)).isEmpty then
    .invalid "Cannot create order for user with an empty cart"
  else
    match dc with
    | some d =>
      match db.findUser d with
      | none => .invalid "Invalid pk - object does not exist."
      | some du =>
        match OrderSerializer.validate_delivery_crew db du with
        | .error msg => .invalid msg
        | .ok _ =>
          OrderSerializer.createCommit db u (some d) st
    | none => OrderSerializer.createCommit db u none st

/-- Behaviour of `CartItemViewSet.destroy_all` (views.py lines 70-76):
when the user has a cart, delete it (the cascade removes its cart items);
always answer `204 No Content`. -/
def CartItemViewSet.destroy_all (db : DB) (u : Nat) : DB × Nat :=
  match db.userCart u with
  | some c =>
    ({ db with carts := db.carts.filter (fun c2 => c2.id != c.id),
               cartItems := db.cartItems.filter (fun ci => ci.cart != c.id) },
     204)
  | none => (db, 204)

/-- Group runs of alphanumeric characters of a string, lowercased, as the
`python-slugify` library does on ASCII input (non-alphanumeric characters
separate words; leading, trailing and repeated separators collapse). -/
def slugTokens (cs : List Char) : List (List Char) :=
  cs.foldr
    (fun c acc =>
      if c.isAlphanum then
        match acc with
        | [] => [[c.toLower]]
        | w :: ws => (c.toLower :: w) :: ws
      else
        [] :: acc)
    []

/-- The `slugify` function of the `python-slugify` dependency, modelled
for ASCII input (the app applies it to group names such as "Manager" and
"Delivery Crew"): lowercase, turn separator runs into single hyphens,
strip boundary hyphens. -/
def slugify (s : String) : String :=
  String.intercalate "-"
    (((slugTokens s.toList).filter (fun w => !w.isEmpty)).map List.asString)

/-- Behaviour of `GroupUserViewSet.initialize_request` (views.py lines
122-131): scan `Group.objects.all()` for the first group whose slugified
name equals the URL's `group_name`, raising `Http404` when none matches. -/
def GroupUserViewSet.resolveGroup (db : DB) (group_name : String) :
    Option Group :=
  db.groups.find? (fun g => slugify g.name == group_name)

/-- Add a user to a group: `self.group.user_set.add(user)`. -/
def addUserToGroup (db : DB) (uid gid : Nat) : DB :=
  { db with users := db.users.map (fun u =>
      if u.id == uid then
        { u with groups := if u.groups.contains gid then u.groups
                           else u.groups ++ [gid] }
      else u) }

/-- Behaviour of a POST to `GroupUserViewSet` (views.py lines 122-141):
`initialize_request` resolves the group or raises `Http404`; `create`
looks the user up by the body's `username` via `get_object_or_404` and
adds them to the group, answering `201`. -/
def GroupUserViewSet.create (db : DB) (group_name username : String) :
    PostResult User :=
  match GroupUserViewSet.resolveGroup db group_name with
  | none => .notFound
  | some g =>
    match db.users.find? (fun u => u.username == username) with
    | none => .notFound
    | some u => .ok (addUserToGroup db u.id g.id) u

/-! ### Sample states and helper lemmas -/

/-- A small concrete state used to exercise the theorems: one menu item,
one cart for user 1 holding one cart item, and the two auth groups. -/
def sampleDB : DB :=
  { menuItems := [{ id := 1, title := "Pizza", price := 250, featured := false,
                    category := 1 }],
    carts := [{ id := 7, user := 1 }],
    cartItems := [{ id := 8, user := 1, cart := 7, menu_item := 1,
                    quantity := 2 }],
    orders := [], orderItems := [],
    groups := [{ id := 1, name := "Delivery Crew" },
               { id := 2, name := "Manager" }],
    users := [{ id := 1, username := "alice", groups := [] },
              { id := 3, username := "bob", groups := [1] }],
    nextId := 9 }

/-- The empty database state. -/
def emptyDB : DB :=
  { menuItems := [], carts := [], cartItems := [], orders := [],
    orderItems := [], groups := [], users := [], nextId := 1 }

/-- A running-total loop is the sum of the mapped list. -/
theorem foldl_add_map {α : Type} (f : α → Int) (l : List α) (a : Int) :
    l.foldl (fun t x => t + f x) a = a + (l.map f).sum := by
  induction l generalizing a with
  | nil => simp
  | cons x xs ih => simp [ih, add_assoc]

/-! ### C3: totals are sums -/

/-- C3: the serialized order total equals the sum of the `price` fields of
the order's order items, and the serialized cart total equals the sum over
the cart's items of menu-item price times quantity, both computed on
read. -/
theorem totals_are_sums (db : DB) (oid cid : Nat) :
    OrderSerializer.get_total db oid =
      ((db.orderItems.filter (fun oi => oi.order == oid)).map
        OrderItem.price).sum ∧
    CartSerializer.get_total db cid =
      ((db.cartItems.filter (fun ci => ci.cart == cid)).map
        (fun ci => db.menuPrice ci.menu_item * ci.quantity)).sum := by
  constructor
  · unfold OrderSerializer.get_total
    rw [foldl_add_map OrderItem.price, zero_add]
  · unfold CartSerializer.get_total
    rw [foldl_add_map (fun ci : CartItem => db.menuPrice ci.menu_item * ci.quantity),
        zero_add]

/-! ### C2: empty cart rejected -/

/-- C2: a POST creating an order for a user whose cart has no items is
answered with the `ValidationError` from `validate_user`, and the state is
unchanged. -/
theorem empty_cart_order_rejected (db : DB) (u : Nat)
    (body : OrderRequestBody) (h : db.userCartItems u = []) :
    OrderSerializer.post db u body =
      .invalid "Cannot create order for user with an empty cart" ∧
    (OrderSerializer.post db u body).stateAfter db = db := by
  have h0 : db.cartItems.filter (fun ci => ci.user == u) = [] := h
  constructor
  · simp [OrderSerializer.post, h0]
  · simp [OrderSerializer.post, h0, PostResult.stateAfter]

/-- Witness for C2 at the empty state. -/
theorem empty_cart_order_rejected_witness :
    emptyDB.userCartItems 1 = [] ∧
    (OrderSerializer.post emptyDB 1 ⟨none, none⟩ =
      .invalid "Cannot create order for user with an empty cart" ∧
    (OrderSerializer.post emptyDB 1 ⟨none, none⟩).stateAfter emptyDB =
      emptyDB) :=
  ⟨rfl, empty_cart_order_rejected emptyDB 1 ⟨none, none⟩ rfl⟩

/-! ### C5: delivery-crew validation -/

/-- C5: `validate_delivery_crew` accepts a user exactly when some group
named "Delivery Crew" has them as a member, and rejects every other user
with a `ValidationError`. -/
theorem delivery_crew_validator_spec (db : DB) (du : User) :
    (OrderSerializer.validate_delivery_crew db du = .ok du ↔
      ∃ g ∈ db.groups, g.name = "Delivery Crew" ∧ g.id ∈ du.groups) ∧
    ((∀ g ∈ db.groups, g.name = "Delivery Crew" → g.id ∉ du.groups) →
      OrderSerializer.validate_delivery_crew db du =
        .error "Invalid delivery crew ID") := by
  have hiff : du.inGroup db "Delivery Crew" = true ↔
      ∃ g ∈ db.groups, g.name = "Delivery Crew" ∧ g.id ∈ du.groups := by
    simp [User.inGroup, List.isEmpty_iff, List.filter_eq_nil_iff]
  constructor
  · constructor
    · intro hok
      by_cases hin : du.inGroup db "Delivery Crew"
      · exact hiff.mp hin
      · simp [OrderSerializer.validate_delivery_crew, hin] at hok
    · intro hex
      simp [OrderSerializer.validate_delivery_crew, hiff.mpr hex]
  · intro hno
    have hin : du.inGroup db "Delivery Crew" = false := by
      by_contra hcon
      have : du.inGroup db "Delivery Crew" = true := by
        cases hb : du.inGroup db "Delivery Crew" with
        | false => exact absurd hb hcon
        | true => rfl
      obtain ⟨g, hg, hname, hmem⟩ := hiff.mp this
      exact hno g hg hname hmem
    simp [OrderSerializer.validate_delivery_crew, hin]

/-- Witness for C5: in `sampleDB`, bob is delivery crew and alice is not. -/
theorem delivery_crew_validator_spec_witness :
    OrderSerializer.validate_delivery_crew sampleDB ⟨3, "bob", [1]⟩ =
      .ok ⟨3, "bob", [1]⟩ ∧
    OrderSerializer.validate_delivery_crew sampleDB ⟨1, "alice", []⟩ =
      .error "Invalid delivery crew ID" :=
  ⟨(delivery_crew_validator_spec sampleDB ⟨3, "bob", [1]⟩).1.mpr (by decide),
   (delivery_crew_validator_spec sampleDB ⟨1, "alice", []⟩).2 (by decide)⟩

/-! ### C4: duplicate cart items rejected -/

/-- C4: a POST of a cart item for a `(user, menu_item)` pair that already
has a cart item is answered with a `ValidationError`, and the state — in
particular the existing cart item — is unchanged. -/
theorem duplicate_cart_item_rejected (db : DB) (u mid : Nat) (q : Int)
    (hdup : ∃ ci ∈ db.cartItems, ci.user = u ∧ ci.menu_item = mid) :
    (∃ msg, CartItemSerializer.post db u mid q = .invalid msg) ∧
    (CartItemSerializer.post db u mid q).stateAfter db = db := by
  have hne : (!(db.cartItems.filter
      (fun ci => ci.user == u && ci.menu_item == mid)).isEmpty) = true := by
    obtain ⟨ci, hmem, hu, hm⟩ := hdup
    simp [List.isEmpty_iff, List.filter_eq_nil_iff]
    exact ⟨ci, hmem, by simp [hu, hm]⟩
  have hmain : ∃ msg, CartItemSerializer.post db u mid q = .invalid msg := by
    unfold CartItemSerializer.post
    split_ifs with h1 h2
    · exact ⟨_, rfl⟩
    · exact ⟨_, rfl⟩
    · exact ⟨_, rfl⟩
  obtain ⟨msg, hmsg⟩ := hmain
  exact ⟨⟨msg, hmsg⟩, by rw [hmsg]; rfl⟩

/-- Witness for C4: in `sampleDB` user 1 already has menu item 1. -/
theorem duplicate_cart_item_rejected_witness :
    (∃ ci ∈ sampleDB.cartItems, ci.user = 1 ∧ ci.menu_item = 1) ∧
    ((∃ msg, CartItemSerializer.post sampleDB 1 1 5 = .invalid msg) ∧
     (CartItemSerializer.post sampleDB 1 1 5).stateAfter sampleDB =
       sampleDB) :=
  ⟨by decide, duplicate_cart_item_rejected sampleDB 1 1 5 (by decide)⟩

/-! ### C6: quantity at least one -/

/-- C6: a cart item accepted by the serializer on create or update has
quantity at least 1, and an input quantity below 1 is answered with a
`ValidationError` (on update after the instance lookup succeeds; a missing
instance is a 404). -/
theorem cart_item_quantity_at_least_one (db : DB) (u pk mid : Nat)
    (q : Int) :
    (∀ db2 item, CartItemSerializer.post db u mid q = .ok db2 item →
      1 ≤ item.quantity) ∧
    (∀ db2 item, CartItemSerializer.put db u pk mid q = .ok db2 item →
      1 ≤ item.quantity) ∧
    (q < 1 →
      (∃ msg, CartItemSerializer.post db u mid q = .invalid msg) ∧
      (CartItemSerializer.put db u pk mid q = .notFound ∨
       ∃ msg, CartItemSerializer.put db u pk mid q = .invalid msg)) := by
  refine ⟨?_, ?_, ?_⟩
  · intro db2 item h
    unfold CartItemSerializer.post at h
    split at h
    · exact absurd h (by simp)
    · split at h
      · exact absurd h (by simp)
      · split at h
        · exact absurd h (by simp)
        · split at h <;> (cases h; simp; omega)
  · intro db2 item h
    unfold CartItemSerializer.put at h
    split at h
    · exact absurd h (by simp)
    · split at h
      · exact absurd h (by simp)
      · split at h
        · exact absurd h (by simp)
        · split at h
          · exact absurd h (by simp)
          · cases h
            simp
            omega
  · intro hq
    constructor
    · unfold CartItemSerializer.post
      split_ifs with h1 <;> exact ⟨_, rfl⟩
    · unfold CartItemSerializer.put
      split
      · exact .inl rfl
      · refine .inr ?_
        split_ifs with h1 <;> exact ⟨_, rfl⟩

/-- Witness for C6 with quantity 0 rejected on create and update. -/
theorem cart_item_quantity_at_least_one_witness :
    ((0 : Int) < 1) ∧
    ((∃ msg, CartItemSerializer.post sampleDB 1 1 0 = .invalid msg) ∧
     (CartItemSerializer.put sampleDB 1 8 1 0 = .notFound ∨
      ∃ msg, CartItemSerializer.put sampleDB 1 8 1 0 = .invalid msg)) :=
  ⟨by decide,
   (cart_item_quantity_at_least_one sampleDB 1 8 1 0).2.2 (by decide)⟩

/-! ### C9: destroy_all is idempotent -/

/-- C9: on a state whose carts are one-per-user (the `OneToOneField`
constraint), `destroy_all` answers 204 whether or not the user has a cart,
leaves the state unchanged when they have none, removes every cart of the
user, and running it a second time changes nothing and answers 204
again. -/
theorem destroy_all_idempotent (db : DB) (u : Nat)
    (huniq : ∀ c1 ∈ db.carts, ∀ c2 ∈ db.carts, c1.user = c2.user → c1 = c2) :
    (CartItemViewSet.destroy_all db u).2 = 204 ∧
    (db.userCart u = none → (CartItemViewSet.destroy_all db u).1 = db) ∧
    (∀ c ∈ (CartItemViewSet.destroy_all db u).1.carts, c.user ≠ u) ∧
    CartItemViewSet.destroy_all (CartItemViewSet.destroy_all db u).1 u =
      ((CartItemViewSet.destroy_all db u).1, 204) := by
  cases hfind : db.userCart u with
  | none =>
    have hnone : ∀ c ∈ db.carts, c.user ≠ u := by
      intro c hc
      have := List.find?_eq_none.mp hfind c hc
      simpa using this
    have h1 : CartItemViewSet.destroy_all db u = (db, 204) := by
      unfold CartItemViewSet.destroy_all
      rw [hfind]
    refine ⟨by rw [h1], fun _ => by rw [h1], ?_, ?_⟩
    · rw [h1]
      exact hnone
    · rw [h1]
      simpa using h1
  | some c =>
    have hcmem : c ∈ db.carts := List.mem_of_find?_eq_some hfind
    have hcuser : c.user = u := by
      have := List.find?_some hfind
      simpa using this
    have h1 : CartItemViewSet.destroy_all db u =
        ({ db with carts := db.carts.filter (fun c2 => c2.id != c.id),
                   cartItems := db.cartItems.filter
                     (fun ci => ci.cart != c.id) }, 204) := by
      unfold CartItemViewSet.destroy_all
      rw [hfind]
    have hgone : ∀ c2 ∈ db.carts.filter (fun c2 => c2.id != c.id),
        c2.user ≠ u := by
      intro c2 hc2 hu2
      have hmem := (List.mem_filter.mp hc2).1
      have hid := (List.mem_filter.mp hc2).2
      have heq : c2 = c := huniq c2 hmem c hcmem (hu2.trans hcuser.symm)
      rw [heq] at hid
      simp at hid
    have hfind2 : (db.carts.filter (fun c2 => c2.id != c.id)).find?
        (fun c2 => c2.user == u) = none := by
      rw [List.find?_eq_none]
      intro c2 hc2
      simpa using hgone c2 hc2
    refine ⟨by rw [h1],
      fun hco => Option.noConfusion hco, ?_, ?_⟩
    · rw [h1]
      exact hgone
    · rw [h1]
      unfold CartItemViewSet.destroy_all
      unfold DB.userCart
      rw [hfind2]

/-- Witness for C9 at `sampleDB`, whose single cart belongs to user 1. -/
theorem destroy_all_idempotent_witness :
    (∀ c1 ∈ sampleDB.carts, ∀ c2 ∈ sampleDB.carts,
      c1.user = c2.user → c1 = c2) ∧
    ((CartItemViewSet.destroy_all sampleDB 1).2 = 204 ∧
     (sampleDB.userCart 1 = none →
       (CartItemViewSet.destroy_all sampleDB 1).1 = sampleDB) ∧
     (∀ c ∈ (CartItemViewSet.destroy_all sampleDB 1).1.carts, c.user ≠ 1) ∧
     CartItemViewSet.destroy_all (CartItemViewSet.destroy_all sampleDB 1).1 1 =
       ((CartItemViewSet.destroy_all sampleDB 1).1, 204)) :=
  ⟨by decide, destroy_all_idempotent sampleDB 1 (by decide)⟩

/-! ### C7: group resolution and 404s -/

/-- C7: a group-membership request resolves the target group as one whose
slugified name equals the URL's `group_name`; when no group matches, the
request is a 404, and a POST naming a username with no user row is a 404
as well. -/
theorem group_user_not_found (db : DB) (gname uname : String) :
    (∀ g, GroupUserViewSet.resolveGroup db gname = some g →
      g ∈ db.groups ∧ slugify g.name = gname) ∧
    ((∀ g ∈ db.groups, slugify g.name ≠ gname) →
      GroupUserViewSet.resolveGroup db gname = none ∧
      GroupUserViewSet.create db gname uname = .notFound) ∧
    ((∀ v ∈ db.users, v.username ≠ uname) →
      GroupUserViewSet.create db gname uname = .notFound) := by
  refine ⟨?_, ?_, ?_⟩
  · intro g hg
    refine ⟨List.mem_of_find?_eq_some hg, ?_⟩
    have := List.find?_some hg
    simpa using this
  · intro hno
    have hres : GroupUserViewSet.resolveGroup db gname = none := by
      rw [GroupUserViewSet.resolveGroup, List.find?_eq_none]
      intro g hg
      simpa using hno g hg
    refine ⟨hres, ?_⟩
    unfold GroupUserViewSet.create
    rw [hres]
  · intro hno
    unfold GroupUserViewSet.create
    cases hres : GroupUserViewSet.resolveGroup db gname with
    | none => rfl
    | some g =>
      have hfind : db.users.find? (fun v => v.username == uname) = none := by
        rw [List.find?_eq_none]
        intro v hv
        simpa using hno v hv
      rw [hfind]

/-- Witness for C7: no group of `sampleDB` slugifies to "admins", and no
user is named "carol". -/
theorem group_user_not_found_witness :
    ((∀ g ∈ sampleDB.groups, slugify g.name ≠ "admins") ∧
     GroupUserViewSet.resolveGroup sampleDB "admins" = none ∧
     GroupUserViewSet.create sampleDB "admins" "bob" = .notFound) ∧
    ((∀ v ∈ sampleDB.users, v.username ≠ "carol") ∧
     GroupUserViewSet.create sampleDB "manager" "carol" = .notFound) :=
  ⟨⟨by decide, (group_user_not_found sampleDB "admins" "bob").2.1 (by decide)⟩,
   ⟨by decide, (group_user_not_found sampleDB "manager" "carol").2.2 (by decide)⟩⟩

/-! ### C8: a cart item is attached to its own user's cart -/

/-- C8: when a cart-item POST succeeds, the created item belongs to the
requesting user and sits in a cart of that user (created on the fly when
they had none), and the property that every cart item's cart belongs to
the item's own user is preserved. -/
theorem cart_item_attached_to_own_cart (db : DB) (u mid : Nat) (q : Int)
    (hinv : ∀ ci ∈ db.cartItems,
      ∃ c ∈ db.carts, c.id = ci.cart ∧ c.user = ci.user) :
    ∀ db2 item, CartItemSerializer.post db u mid q = .ok db2 item →
      item.user = u ∧
      (∃ c ∈ db2.carts, c.id = item.cart ∧ c.user = u) ∧
      (∀ ci ∈ db2.cartItems,
        ∃ c ∈ db2.carts, c.id = ci.cart ∧ c.user = ci.user) := by
  intro db2 item h
  unfold CartItemSerializer.post at h
  split_ifs at h
  revert h
  cases hfind : db.userCart u with
  | some c =>
    intro h
    cases h
    have hcmem : c ∈ db.carts := List.mem_of_find?_eq_some hfind
    have hcuser : c.user = u := by
      have := List.find?_some hfind
      simpa using this
    refine ⟨rfl, ⟨c, hcmem, rfl, hcuser⟩, ?_⟩
    intro ci hci
    rcases List.mem_append.mp hci with hold | hnew
    · exact hinv ci hold
    · have hci2 : ci = ⟨db.nextId, u, c.id, mid, q⟩ := by simpa using hnew
      subst hci2
      exact ⟨c, hcmem, rfl, hcuser⟩
  | none =>
    intro h
    cases h
    refine ⟨rfl, ⟨⟨db.nextId, u⟩, by simp, rfl, rfl⟩, ?_⟩
    intro ci hci
    rcases List.mem_append.mp hci with hold | hnew
    · obtain ⟨c, hc, hcid, hcu⟩ := hinv ci hold
      exact ⟨c, List.mem_append.mpr (.inl hc), hcid, hcu⟩
    · have hci2 : ci = ⟨db.nextId + 1, u, db.nextId, mid, q⟩ := by
        simpa using hnew
      subst hci2
      exact ⟨⟨db.nextId, u⟩, by simp, rfl, rfl⟩

/-- Witness for C8: user 3 of `sampleDB` has no cart yet; the POST creates
one and attaches the item to it. -/
theorem cart_item_attached_to_own_cart_witness :
    (∀ ci ∈ sampleDB.cartItems,
      ∃ c ∈ sampleDB.carts, c.id = ci.cart ∧ c.user = ci.user) ∧
    (CartItem.user ⟨10, 3, 9, 1, 4⟩ = 3 ∧
     (∃ c ∈ (CartItemSerializer.post sampleDB 3 1 4).stateAfter
        sampleDB |>.carts, c.id = CartItem.cart ⟨10, 3, 9, 1, 4⟩ ∧
        c.user = 3) ∧
     (∀ ci ∈ (CartItemSerializer.post sampleDB 3 1 4).stateAfter
        sampleDB |>.cartItems,
       ∃ c ∈ (CartItemSerializer.post sampleDB 3 1 4).stateAfter
          sampleDB |>.carts, c.id = ci.cart ∧ c.user = ci.user)) :=
  ⟨by decide,
   cart_item_attached_to_own_cart sampleDB 3 1 4 (by decide)
     ((CartItemSerializer.post sampleDB 3 1 4).stateAfter sampleDB)
     ⟨10, 3, 9, 1, 4⟩ (by decide)⟩

/-! ### C10 and C1: order creation -/

/-- On a POST, `get_serializer_class` hides `delivery_crew` and `status`,
so binding reduces to the empty-cart check followed by the write phase with
crew `none` and status `false`, whatever the body says. -/
theorem order_post_eval (db : DB) (u : Nat) (b : OrderRequestBody) :
    OrderSerializer.post db u b =
      if (db.cartItems.filter (fun ci => ci.user == u)).isEmpty then
        PostResult.invalid "Cannot create order for user with an empty cart"
      else OrderSerializer.createCommit db u none false := rfl

/-- C10: the body fields `delivery_crew` and `status` of an order POST are
dropped by the hidden-field serializer, so two requests differing only
there behave identically, and a created order always has crew `NULL` and
status false. -/
theorem order_post_ignores_crew_and_status (db : DB) (u : Nat)
    (b1 b2 : OrderRequestBody) :
    OrderSerializer.post db u b1 = OrderSerializer.post db u b2 ∧
    (∀ db2 o, OrderSerializer.post db u b1 = .ok db2 o →
      o.delivery_crew = none ∧ o.status = false) := by
  constructor
  · rw [order_post_eval db u b1, order_post_eval db u b2]
  · intro db2 o h
    rw [order_post_eval db u b1] at h
    split_ifs at h
    unfold OrderSerializer.createCommit at h
    dsimp only [] at h
    split at h
    · exact absurd h (by simp)
    · cases h
      exact ⟨rfl, rfl⟩

/-- Witness for C10: two bodies disagreeing on both fields give the same
response on `sampleDB`, and the created order has crew `none` and status
false. -/
theorem order_post_ignores_crew_and_status_witness :
    OrderSerializer.post sampleDB 1 ⟨some 3, some true⟩ =
      OrderSerializer.post sampleDB 1 ⟨none, none⟩ ∧
    (Order.delivery_crew ⟨9, 1, none, false⟩ = none ∧
     Order.status ⟨9, 1, none, false⟩ = false) :=
  ⟨(order_post_ignores_crew_and_status sampleDB 1 ⟨some 3, some true⟩
      ⟨none, none⟩).1,
   (order_post_ignores_crew_and_status sampleDB 1 ⟨some 3, some true⟩
      ⟨none, none⟩).2
     ((OrderSerializer.post sampleDB 1 ⟨some 3, some true⟩).stateAfter
       sampleDB)
     ⟨9, 1, none, false⟩ (by decide)⟩

/-- Each snapshot row copies its cart item's menu item and quantity and
prices it at the current menu price. -/
theorem snapshotItems_forall2 (db : DB) (oid : Nat) (k : Nat)
    (l : List CartItem) :
    List.Forall₂ (fun (ci : CartItem) (oi : OrderItem) =>
      oi.order = oid ∧ oi.menu_item = ci.menu_item ∧
      oi.quantity = ci.quantity ∧
      oi.unit_price = db.menuPrice ci.menu_item ∧
      oi.price = db.menuPrice ci.menu_item * ci.quantity)
      l (snapshotItems db oid k l) := by
  induction l generalizing k with
  | nil => exact List.Forall₂.nil
  | cons x xs ih =>
    exact List.Forall₂.cons ⟨rfl, rfl, rfl, rfl, rfl⟩ (ih (k + 1))

/-- C1: a successful order POST for a user with a cart and at least one
cart item appends one order item per cart item — copying `menu_item` and
`quantity`, pricing `unit_price` at the current menu price and `price` at
menu price times quantity — leaves the previous order items in place, and
deletes the user's cart record together with every cart item of that
cart. -/
theorem order_creation_snapshots_cart (db : DB) (u : Nat)
    (body : OrderRequestBody) (c : Cart)
    (hc : db.userCart u = some c)
    (hne : db.userCartItems u ≠ []) :
    ∃ db2 order,
      OrderSerializer.post db u body = .ok db2 order ∧
      List.Forall₂ (fun (ci : CartItem) (oi : OrderItem) =>
        oi.order = order.id ∧ oi.menu_item = ci.menu_item ∧
        oi.quantity = ci.quantity ∧
        oi.unit_price = db.menuPrice ci.menu_item ∧
        oi.price = db.menuPrice ci.menu_item * ci.quantity)
        (db.userCartItems u)
        (db2.orderItems.drop db.orderItems.length) ∧
      db2.orderItems.take db.orderItems.length = db.orderItems ∧
      c ∉ db2.carts ∧
      (∀ ci ∈ db2.cartItems, ci.cart ≠ c.id) := by
  have hcond : ¬((db.cartItems.filter (fun ci => ci.user == u)).isEmpty
      = true) := by
    rw [List.isEmpty_iff]
    exact hne
  have hfind : db.carts.find? (fun c2 => c2.user == u) = some c := hc
  refine ⟨?_, ⟨db.nextId, u, none, false⟩, ?_, ?_, ?_, ?_, ?_⟩
  case refine_1 =>
    exact
      { db with
          orders := db.orders ++ [⟨db.nextId, u, none, false⟩],
          orderItems := db.orderItems ++
            snapshotItems db db.nextId (db.nextId + 1)
              (db.cartItems.filter (fun ci => ci.user == u)),
          carts := db.carts.filter (fun c2 => c2.id != c.id),
          cartItems := db.cartItems.filter (fun ci => ci.cart != c.id),
          nextId := db.nextId + 1 +
            (db.cartItems.filter (fun ci => ci.user == u)).length }
  case refine_2 =>
    rw [order_post_eval db u body, if_neg hcond]
    unfold OrderSerializer.createCommit
    simp only [DB.userCart]
    rw [hfind]
  case refine_3 =>
    show List.Forall₂ _ (db.cartItems.filter (fun ci => ci.user == u))
      ((db.orderItems ++ snapshotItems db db.nextId (db.nextId + 1)
        (db.cartItems.filter (fun ci => ci.user == u))).drop
          db.orderItems.length)
    rw [List.drop_left]
    exact snapshotItems_forall2 db db.nextId (db.nextId + 1)
      (db.cartItems.filter (fun ci => ci.user == u))
  case refine_4 =>
    show (db.orderItems ++ snapshotItems db db.nextId (db.nextId + 1)
        (db.cartItems.filter (fun ci => ci.user == u))).take
          db.orderItems.length = db.orderItems
    rw [List.take_left]
  case refine_5 =>
    intro hmem
    have hid := (List.mem_filter.mp hmem).2
    simp at hid
  case refine_6 =>
    intro ci hci
    have hid := (List.mem_filter.mp hci).2
    simpa using hid

/-- Witness for C1 at `sampleDB`, whose user 1 owns cart 7 with one
item. -/
theorem order_creation_snapshots_cart_witness :
    sampleDB.userCart 1 = some ⟨7, 1⟩ ∧
    sampleDB.userCartItems 1 ≠ [] ∧
    (∃ db2 order,
      OrderSerializer.post sampleDB 1 ⟨none, none⟩ = .ok db2 order ∧
      List.Forall₂ (fun (ci : CartItem) (oi : OrderItem) =>
        oi.order = order.id ∧ oi.menu_item = ci.menu_item ∧
        oi.quantity = ci.quantity ∧
        oi.unit_price = sampleDB.menuPrice ci.menu_item ∧
        oi.price = sampleDB.menuPrice ci.menu_item * ci.quantity)
        (sampleDB.userCartItems 1)
        (db2.orderItems.drop sampleDB.orderItems.length) ∧
      db2.orderItems.take sampleDB.orderItems.length =
        sampleDB.orderItems ∧
      (⟨7, 1⟩ : Cart) ∉ db2.carts ∧
      (∀ ci ∈ db2.cartItems, ci.cart ≠ Cart.id ⟨7, 1⟩)) :=
  ⟨rfl, by decide,
   order_creation_snapshots_cart sampleDB 1 ⟨none, none⟩ ⟨7, 1⟩ rfl
     (by decide)⟩

end LittleLemon
